import Mathlib

/-!
Verification development for the Big-Beautiful-Box tank-fill controller.

The definitions below are a shallow embedding of the Python source:
`dashboard.py` (tick update, listeners, relay, recovery, stale detection)
and the `src/` library modules (`calculations.py`, `flow_meter.py`,
`gpio_handler.py`, `state.py`).  Machine floats are modelled as exact
rationals; frames are lists of byte values; stateful code is modelled as
explicit state-passing step functions.
-/

namespace BBB

/-! ### Configuration constants (config.py, dashboard.py) -/

def LITERS_TO_GALLONS : ℚ := 264172 / 1000000

def LITERS_PER_SEC_TO_GPM : ℚ := 15850323 / 1000000

def FLOW_CURVE_SLOPE : ℚ := 30625 / 1000000

def FLOW_CURVE_INTERCEPT : ℚ := -22375 / 100000

def FLOW_STOPPED_THRESHOLD : ℚ := 1 / 1000

def FLOW_METER_TIMEOUT : ℚ := 5

def IOL_RECONNECT_INTERVAL : ℚ := 15

def STALE_RAW_THRESHOLD : ℕ := 25

/-- calculations.py `calculate_trigger_threshold` / dashboard.py
`calculate_trigger_threshold`: coast-distance prediction with a 0.1 gal
floor. -/
def calculate_trigger_threshold (flow_rate_l_per_s : ℚ) : ℚ :=
  let flow_rate_gpm := flow_rate_l_per_s * LITERS_PER_SEC_TO_GPM
  let predicted_coast := FLOW_CURVE_SLOPE * flow_rate_gpm + FLOW_CURVE_INTERCEPT
  max predicted_coast (1 / 10)

/-- calculations.py `should_trigger_alert`: pure auto-alert predicate. -/
def should_trigger_alert (actual_gallons requested_gallons flow_rate_l_per_s : ℚ)
    (override_mode already_triggered : Bool) : Bool :=
  if override_mode || already_triggered then false
  else
    let threshold := calculate_trigger_threshold flow_rate_l_per_s
    decide (requested_gallons - threshold ≤ actual_gallons)

/-! ### The per-tick controller state (globals mutated by `update_dashboard`) -/

structure DashState where
  was_flowing : Bool
  colors_are_green : Bool
  pending_fill_gallons : ℚ
  pending_fill_requested : ℚ
  pending_fill_shutoff_type : String
  override_mode : Bool
  override_enabled_time : ℚ
  last_alert_triggered : Bool
deriving DecidableEq

structure TickInput where
  /-- gallons value returned by `read_flow_meter()` this tick -/
  actual : ℚ
  last_flow_rate : ℚ
  flow_meter_disconnected : Bool
  requested_gallons : ℚ
  /-- value of `time.time()` during this tick -/
  now : ℚ
deriving DecidableEq

/-- dashboard.py `update_dashboard` line `is_flowing = last_flow_rate >=
config.FLOW_STOPPED_THRESHOLD`. -/
def isFlowing (i : TickInput) : Bool :=
  decide (FLOW_STOPPED_THRESHOLD ≤ i.last_flow_rate)

/-- dashboard.py `update_dashboard` lines 3067-3078: override safety
supervision.  Returns the new `(override_mode, override_enabled_time)`. -/
def superviseOverride (override_mode : Bool) (override_enabled_time : ℚ)
    (last_flow_rate : ℚ) (flow_meter_disconnected : Bool) (now : ℚ) : Bool × ℚ :=
  if override_mode && !flow_meter_disconnected then
    if last_flow_rate < FLOW_STOPPED_THRESHOLD then
      if 60 < now - override_enabled_time then
        (false, override_enabled_time)
      else
        (override_mode, override_enabled_time)
    else
      (override_mode, now)
  else
    (override_mode, override_enabled_time)

/-- dashboard.py `update_dashboard` lines 3036-3047: snapshot the pending
fill when flow stops (shutoff type records whether the alert fired this
cycle). -/
def flowStopStep (s : DashState) (i : TickInput) : DashState :=
  if s.was_flowing && !isFlowing i then
    { s with
      pending_fill_gallons := i.actual
      pending_fill_requested := i.requested_gallons
      pending_fill_shutoff_type :=
        if s.last_alert_triggered then ("Auto") else ("Manual") }
  else s

/-- dashboard.py `update_dashboard` lines 3053-3062: reset colors and clear
any pending fill data when a new fill cycle starts. -/
def flowStartStep (s : DashState) (i : TickInput) : DashState :=
  if !s.was_flowing && isFlowing i then
    { s with
      colors_are_green := false
      pending_fill_gallons := 0
      pending_fill_requested := 0
      pending_fill_shutoff_type := "" }
  else s

/-- dashboard.py `update_dashboard` lines 3067-3078 applied to the
controller state. -/
def applySupervision (s : DashState) (i : TickInput) : DashState :=
  let ov := superviseOverride s.override_mode s.override_enabled_time
    i.last_flow_rate i.flow_meter_disconnected i.now
  { s with override_mode := ov.1, override_enabled_time := ov.2 }

/-- dashboard.py `update_dashboard` lines 3084-3092: the auto-alert
decision and the re-arm branch.  The Bool result records whether the
auto-alert relay pulse was launched. -/
def autoAlertStep (s : DashState) (i : TickInput) : DashState × Bool :=
  let trigger_threshold := calculate_trigger_threshold i.last_flow_rate
  if !s.override_mode && !i.flow_meter_disconnected
      && decide (i.requested_gallons - trigger_threshold ≤ i.actual)
      && !s.last_alert_triggered then
    ({ s with last_alert_triggered := true }, true)
  else if i.actual < i.requested_gallons - trigger_threshold then
    ({ s with last_alert_triggered := false }, false)
  else
    (s, false)

/-- dashboard.py `update_dashboard` lines 3032-3092: flow-stop snapshot,
flow-start reset, `was_flowing` update, override supervision, then the
auto-alert decision, in source order. -/
def dashTick (s : DashState) (i : TickInput) : DashState × Bool :=
  autoAlertStep
    (applySupervision
      ({ flowStartStep (flowStopStep s i) i with was_flowing := isFlowing i }) i) i

/-! ### Sensor link: stale detection (dashboard.py `read_flow_meter`) -/

/-- A raw sensor frame: a list of byte values. -/
abbrev Frame := List ℕ

def Frame.allZero (f : Frame) : Bool := f.all (fun b => b == 0)

inductive ReadOutcome where
  | shortData
  | allZero
  | stale
  | ok
deriving DecidableEq

structure LinkState where
  last_raw_data : Option Frame
  consecutive_identical_raw : ℕ
  connection_error : Bool
deriving DecidableEq

/-- dashboard.py `read_flow_meter` lines 2083-2147: the state transition on
one raw frame, covering the length guard, the all-zero branch, the
stale-data branch and the clean-decode path (decoded values elided; the
outcome records which branch handled the frame). -/
def readFlowMeterStep (s : LinkState) (raw : Frame) : LinkState × ReadOutcome :=
  if raw.length < 15 then
    ({ s with connection_error := true }, .shortData)
  else if raw.allZero then
    ({ last_raw_data := none, consecutive_identical_raw := 0,
       connection_error := true }, .allZero)
  else if s.last_raw_data = some raw then
    let c := s.consecutive_identical_raw + 1
    if STALE_RAW_THRESHOLD ≤ c then
      ({ s with consecutive_identical_raw := c, connection_error := true }, .stale)
    else
      ({ last_raw_data := some raw, consecutive_identical_raw := c,
         connection_error := false }, .ok)
  else
    ({ last_raw_data := some raw, consecutive_identical_raw := 0,
       connection_error := false }, .ok)

/-- Feed the same frame `n` times; true iff some read raised `Stale`. -/
def anyStale (s : LinkState) (raw : Frame) : ℕ → Bool
  | 0 => false
  | n + 1 =>
    let r := readFlowMeterStep s raw
    (r.2 == ReadOutcome.stale) || anyStale r.1 raw n

/-- Iterate `readFlowMeterStep` on the same frame `n` times. -/
def feedRepeated (s : LinkState) (raw : Frame) : ℕ → LinkState
  | 0 => s
  | n + 1 => feedRepeated (readFlowMeterStep s raw).1 raw n

/-! ### Sensor recovery rate limiting (dashboard.py) -/

structure RecoveryState where
  iol_power_cycle_in_progress : Bool
  last_power_cycle_time : ℚ
deriving DecidableEq

/-- dashboard.py `_try_iol_power_cycle` lines 2064-2076: rate-limit check;
the Bool result records whether the power-cycle thread was spawned. -/
def try_iol_power_cycle (s : RecoveryState) (now : ℚ) : RecoveryState × Bool :=
  if s.iol_power_cycle_in_progress then (s, false)
  else if now - s.last_power_cycle_time < IOL_RECONNECT_INTERVAL then (s, false)
  else ({ s with iol_power_cycle_in_progress := true }, true)

/-- The ways the body of `iol_power_cycle` can terminate. -/
inductive CycleOutcome where
  | powerOffFailed
  | powerOnFailed
  | completed
  | unexpectedError
deriving DecidableEq

/-- dashboard.py `iol_power_cycle` lines 2015-2061: every exit path of the
body (early return on power-off failure, early return on power-on failure,
normal completion, the outer exception handler) runs the `finally` block,
which stamps `last_power_cycle_time` with the completion time and clears
the in-progress flag. -/
def iol_power_cycle (s : RecoveryState) (outcome : CycleOutcome)
    (finish_time : ℚ) : RecoveryState :=
  match outcome with
  | .powerOffFailed =>
    { s with iol_power_cycle_in_progress := false,
             last_power_cycle_time := finish_time }
  | .powerOnFailed =>
    { s with iol_power_cycle_in_progress := false,
             last_power_cycle_time := finish_time }
  | .completed =>
    { s with iol_power_cycle_in_progress := false,
             last_power_cycle_time := finish_time }
  | .unexpectedError =>
    { s with iol_power_cycle_in_progress := false,
             last_power_cycle_time := finish_time }

/-! ### Relay pulse (dashboard.py `pump_stop_relay`, gpio_handler.py
`GPIOHandler.activate_relay`) -/

inductive RelayLevel where
  | low
  | high
deriving DecidableEq

/-- dashboard.py `pump_stop_relay` lines 646-699, modelled over an oracle
of which side effects succeed.  The relay output starts LOW (it is
initialized LOW at startup).  Steps, in source order: the function-entry
log write (before the try block, unguarded), the GPIO-availability guard,
the pre-HIGH log write, the HIGH output, the post-HIGH log write, the
sleep, the post-sleep log write, the LOW output, the final log write.  Any
step that raises inside the try block jumps to the except handler, which
only logs; the result is the relay level when the call terminates. -/
def pump_stop_relay (gpio_available : Bool)
    (entry_log_ok pre_high_log_ok set_high_ok post_high_log_ok
     sleep_ok post_sleep_log_ok set_low_ok : Bool) : RelayLevel :=
  if !entry_log_ok then .low
  else if !gpio_available then .low
  else if !pre_high_log_ok then .low
  else if !set_high_ok then .low
  else if !post_high_log_ok then .high
  else if !sleep_ok then .high
  else if !post_sleep_log_ok then .high
  else if !set_low_ok then .high
  else .low

/-- gpio_handler.py `GPIOHandler.activate_relay` lines 137-172: same two
transitions; `_log` swallows its own exceptions, but the sleep (and the
LOW output itself) can raise, and the except handler only logs and returns
False.  Result: final relay level and the returned success flag. -/
def activate_relay (is_available : Bool)
    (set_high_ok sleep_ok set_low_ok : Bool) : RelayLevel × Bool :=
  if !is_available then (.low, false)
  else if !set_high_ok then (.low, false)
  else if !sleep_ok then (.high, false)
  else if !set_low_ok then (.high, false)
  else (.low, true)

/-! ### Frame decoding (flow_meter.py `FlowMeter._parse_data`) -/

/-- Exact value of an IEEE-754 binary32 stored big-endian in four bytes;
`none` for the NaN/infinity exponent. -/
def decodeFloat32 (b0 b1 b2 b3 : ℕ) : Option ℚ :=
  let bits : ℕ := (b0 % 256) * 2 ^ 24 + (b1 % 256) * 2 ^ 16 + (b2 % 256) * 2 ^ 8 + b3 % 256
  let sign : ℕ := bits / 2 ^ 31
  let expo : ℕ := bits / 2 ^ 23 % 256
  let frac : ℕ := bits % 2 ^ 23
  if expo = 255 then none
  else
    let mag : ℚ :=
      if expo = 0 then (frac : ℚ) / 2 ^ 149
      else ((2 ^ 23 + frac : ℕ) : ℚ) * 2 ^ expo / 2 ^ 150
    some (if sign = 1 then -mag else mag)

structure FlowMeter where
  iol_port : ℕ := 2
  data_length : ℕ := 15
  max_retries : ℕ := 3
deriving DecidableEq

inductive ParseError where
  | shortFrame
  | allZero
deriving DecidableEq

/-- flow_meter.py `FlowMeter._parse_data` lines 121-148: rejects frames
shorter than 15 bytes, then all-zero frames, then decodes the totalizer
(absolute value of the big-endian float at offset 4) and the flow rate
(big-endian float at offset 8).  The length guard compares against the
literal 15, not against `m.data_length`. -/
def FlowMeter.parse_data (_m : FlowMeter) (raw : Frame) :
    Except ParseError (Option ℚ × Option ℚ) :=
  if raw.length < 15 then .error .shortFrame
  else if raw.allZero then .error .allZero
  else
    let totalizer_liters :=
      (decodeFloat32 (raw.getD 4 0) (raw.getD 5 0) (raw.getD 6 0) (raw.getD 7 0)).map
        (fun q => |q|)
    let flow_rate_l_per_s :=
      decodeFloat32 (raw.getD 8 0) (raw.getD 9 0) (raw.getD 10 0) (raw.getD 11 0)
    .ok (totalizer_liters, flow_rate_l_per_s)

/-! ### Session state shared by the command listeners -/

structure Session where
  requested_gallons : ℚ
  colors_are_green : Bool
  serial_command_received : Bool
  current_mode : String
  fill_requested_gallons : ℚ
  mix_requested_gallons : ℚ
  override_mode : Bool
  override_enabled_time : ℚ
deriving DecidableEq

/-- dashboard.py `switch_mode` lines 208-249: save the outgoing mode's
gallons into its preset, load the incoming mode's preset, reset the color
state; a no-op when the requested mode is already active. -/
def switch_mode (s : Session) (new_mode : String) : Session :=
  if new_mode = s.current_mode then s
  else
    let fp := if s.current_mode = "fill" then s.requested_gallons
              else s.fill_requested_gallons
    let mp := if s.current_mode = "fill" then s.mix_requested_gallons
              else s.requested_gallons
    let req := if new_mode = "fill" then fp else mp
    { s with
      current_mode := new_mode
      fill_requested_gallons := fp
      mix_requested_gallons := mp
      requested_gallons := req
      colors_are_green := false
      serial_command_received := false }

/-- The gallon-adjustment handler (tokens +1, -1, +10, -10) shared verbatim by the serial and socket
listeners: add, clamp at zero, reset colors, persist into the active
mode's preset. -/
def adjustRequested (s : Session) (adjustment : ℤ) : Session :=
  let r0 := s.requested_gallons + (adjustment : ℚ)
  let r := if r0 < 0 then 0 else r0
  { s with
    requested_gallons := r
    colors_are_green := false
    fill_requested_gallons :=
      if s.current_mode = "fill" then r else s.fill_requested_gallons
    mix_requested_gallons :=
      if s.current_mode = "fill" then s.mix_requested_gallons else r }

/-- Python `str.startswith`, on the character lists of the strings. -/
def strStartsWith (s p : String) : Bool := p.data.isPrefixOf s.data

/-! ### Command listeners (dashboard.py `serial_listener`,
`socket_command_listener`) -/

/-- Modal-screen flags read by the serial listener, in its checking
order. -/
structure UiFlags where
  exit_confirm : Bool
  reset_season_confirm : Bool
  reminders : Bool
  log_viewer : Bool
  fill_history : Bool
  self_test : Bool
  full_test : Bool
  full_test_ov_done : Bool
  update_mode : Bool
  menu : Bool
deriving DecidableEq

inductive SerialAction where
  | heartbeat
  | exitConfirmed
  | exitCancelled
  | resetSeasonConfirmed
  | resetSeasonCancelled
  | remindersDismissed
  | logScrollDown
  | logScrollUp
  | logExit
  | histScrollDown
  | histScrollUp
  | histExit
  | selfTestExit
  | fullTestMarked (sub : String)
  | fullTestExit
  | updateExit
  | menuDown
  | menuUp
  | menuSelect
  | adjusted (n : ℤ)
  | pumpStop
  | overrideToggled
  | menuOpened
  | thumbsUp
  | modeSwitched (m : String)
  | ignoredInModal
  | unknownCommand
deriving DecidableEq

/-- dashboard.py `serial_listener` lines 2362-2645: the priority-ordered
dispatch applied to one complete line.  Returns the updated session and
the action taken (handler invocations are recorded as actions; they do not
touch `requested_gallons` except through the branches modelled here). -/
def serial_dispatch (ui : UiFlags) (s : Session) (now : ℚ) (line : String) :
    Session × SerialAction :=
  if line = "OK" then (s, .heartbeat)
  else if ui.exit_confirm then
    if line = "OV" then (s, .exitConfirmed)
    else if line = "PS" then (s, .exitCancelled)
    else (s, .ignoredInModal)
  else if ui.reset_season_confirm then
    if line = "OV" then (s, .resetSeasonConfirmed)
    else if line = "PS" then (s, .resetSeasonCancelled)
    else (s, .ignoredInModal)
  else if ui.reminders then
    if line = "OV" then (s, .remindersDismissed) else (s, .ignoredInModal)
  else if ui.log_viewer then
    if line = "+1" then (s, .logScrollDown)
    else if line = "-1" then (s, .logScrollUp)
    else if line = "OV" then (s, .logExit)
    else (s, .ignoredInModal)
  else if ui.fill_history then
    if line = "+1" then (s, .histScrollDown)
    else if line = "-1" then (s, .histScrollUp)
    else if line = "OV" then (s, .histExit)
    else (s, .ignoredInModal)
  else if ui.self_test then
    if line = "OV" then (s, .selfTestExit) else (s, .ignoredInModal)
  else if ui.full_test then
    if line = "OV" then
      if ui.full_test_ov_done then (s, .fullTestExit)
      else (s, .fullTestMarked ("OV"))
    else if line = "-1" ∨ line = "+1" ∨ line = "-10" ∨ line = "+10" ∨ line = "PS" then
      (s, .fullTestMarked line)
    else (s, .ignoredInModal)
  else if ui.update_mode then
    if line = "OV" then (s, .updateExit) else (s, .ignoredInModal)
  else if ui.menu then
    if line = "+1" then (s, .menuDown)
    else if line = "-1" then (s, .menuUp)
    else if line = "OV" then (s, .menuSelect)
    else (s, .ignoredInModal)
  else
    if line = "+1" then (adjustRequested s 1, .adjusted 1)
    else if line = "-1" then (adjustRequested s (-1), .adjusted (-1))
    else if line = "+10" then (adjustRequested s 10, .adjusted 10)
    else if line = "-10" then (adjustRequested s (-10), .adjusted (-10))
    else if line = "PS" then (s, .pumpStop)
    else if line = "OV" then
      if s.requested_gallons = 0 then (s, .menuOpened)
      else
        ({ s with
           override_mode := !s.override_mode
           override_enabled_time :=
             if !s.override_mode then now else s.override_enabled_time },
         .overrideToggled)
    else if line = "TU" then (s, .thumbsUp)
    else if line = "MIX" then (switch_mode s ("mix"), .modeSwitched ("mix"))
    else if line = "FILL" then (switch_mode s ("fill"), .modeSwitched ("fill"))
    else (s, .unknownCommand)

inductive SocketAction where
  | statusReply
  | modeSwitched (m : String)
  | flowReset
  | batchMixError
  | batchMixData
  | mopekaOffline
  | mopekaData
  | historyReply
  | adjusted (n : ℤ)
  | pumpStop
  | noMatch
deriving DecidableEq

/-- dashboard.py `socket_command_listener` lines 2193-2308: the dispatch
applied to one line received on the local socket.  The socket listener
consults none of the modal-screen flags; the BATCHMIX/MOPEKA payload
effects on the display caches are outside the session fields modelled
here.  A line matching no branch falls through to the `OK` acknowledgment
with no state change. -/
def socket_dispatch (s : Session) (line : String) : Session × SocketAction :=
  if line = "STATUS" then (s, .statusReply)
  else if line = "MIX" then (switch_mode s ("mix"), .modeSwitched ("mix"))
  else if line = "RESET" then (s, .flowReset)
  else if line = "FILL" then (switch_mode s ("fill"), .modeSwitched ("fill"))
  else if strStartsWith line ("BATCHMIX_ERROR:") then (s, .batchMixError)
  else if strStartsWith line ("BATCHMIX:") then (s, .batchMixData)
  else if line = "MOPEKA_OFFLINE" then (s, .mopekaOffline)
  else if strStartsWith line ("MOPEKA:") then (s, .mopekaData)
  else if line = "HISTORY" then (s, .historyReply)
  else if line = "+1" then (adjustRequested s 1, .adjusted 1)
  else if line = "-1" then (adjustRequested s (-1), .adjusted (-1))
  else if line = "+10" then (adjustRequested s 10, .adjusted 10)
  else if line = "-10" then (adjustRequested s (-10), .adjusted (-10))
  else if line = "PS" then (s, .pumpStop)
  else (s, .noMatch)

/-! ### state.py `DashboardState.switch_mode` -/

structure ModeState where
  current_mode : String
  fill_preset : ℚ
  mix_preset : ℚ
  override_enabled : Bool
deriving DecidableEq

structure FillStateRec where
  requested_gallons : ℚ
  colors_green : Bool
deriving DecidableEq

structure DashboardState where
  fill : FillStateRec
  mode : ModeState
deriving DecidableEq

/-- state.py `DashboardState.switch_mode` lines 194-218: validated mode
switch that saves the outgoing mode's requested gallons to its preset and
loads the incoming preset. -/
def DashboardState.switch_mode (st : DashboardState) (new_mode : String) :
    DashboardState :=
  if new_mode ≠ "fill" ∧ new_mode ≠ "mix" then st
  else if new_mode = st.mode.current_mode then st
  else
    let fp := if st.mode.current_mode = "fill" then st.fill.requested_gallons
              else st.mode.fill_preset
    let mp := if st.mode.current_mode = "fill" then st.mode.mix_preset
              else st.fill.requested_gallons
    { st with
      mode := { st.mode with current_mode := new_mode, fill_preset := fp,
                             mix_preset := mp }
      fill := { requested_gallons := if new_mode = "fill" then fp else mp
                colors_green := false } }

/-! ### Pending-fill confirmation (dashboard.py `record_pending_fill`,
`add_to_totals`) -/

structure TotalsSession where
  daily_total : ℚ
  season_total : ℚ
  pending_fill_gallons : ℚ
  pending_fill_requested : ℚ
  pending_fill_shutoff_type : String
deriving DecidableEq

/-- dashboard.py `add_to_totals` lines 582-587. -/
def add_to_totals (s : TotalsSession) (gallons : ℚ) : TotalsSession :=
  { s with
    daily_total := s.daily_total + gallons
    season_total := s.season_total + gallons }

/-- dashboard.py `record_pending_fill` lines 621-644: only a strictly
positive pending amount is written to the history log, added to both
totals, and cleared; otherwise nothing changes. -/
def record_pending_fill (s : TotalsSession) : TotalsSession :=
  if 0 < s.pending_fill_gallons then
    let s1 := add_to_totals s s.pending_fill_gallons
    { s1 with
      pending_fill_gallons := 0
      pending_fill_requested := 0
      pending_fill_shutoff_type := "" }
  else s

/-! ### Override supervision over a run of ticks -/

structure OvTick where
  last_flow_rate : ℚ
  flow_meter_disconnected : Bool
  now : ℚ
deriving DecidableEq

/-- Iterate `superviseOverride` over a sequence of ticks (no operator
toggles in between). -/
def runOverride (ov : Bool) (t : ℚ) : List OvTick → Bool × ℚ
  | [] => (ov, t)
  | tick :: rest =>
    let r := superviseOverride ov t tick.last_flow_rate
      tick.flow_meter_disconnected tick.now
    runOverride r.1 r.2 rest

/-- The opposite of the active mode (the only two modes are fill and
mix). -/
def otherMode (m : String) : String :=
  if m = "fill" then ("mix") else ("fill")

/-! ### Concrete sample states and inputs used to instantiate theorems -/

/-- A `DashboardState` (state.py) in fill mode with 7 gallons requested. -/
def sampleDashboardState : DashboardState :=
  { fill := { requested_gallons := 7, colors_green := true }
    mode := { current_mode := "fill", fill_preset := 7, mix_preset := 40,
              override_enabled := false } }

/-- A quiescent controller state: filling, alert not yet fired. -/
def sampleFillState : DashState :=
  { was_flowing := true
    colors_are_green := false
    pending_fill_gallons := 0
    pending_fill_requested := 0
    pending_fill_shutoff_type := ""
    override_mode := false
    override_enabled_time := 0
    last_alert_triggered := true }

/-- `sampleFillState` with the alert latch clear. -/
def sampleArmedState : DashState :=
  { sampleFillState with last_alert_triggered := false }

/-- The spec scenario: requested 60 gal, actual 59.8 gal, flow 1 L/s
(predicted threshold about 0.26 gal), meter connected, tick at t = 0. -/
def sampleNearTargetInput : TickInput :=
  { actual := 299 / 5
    last_flow_rate := 1
    flow_meter_disconnected := false
    requested_gallons := 60
    now := 0 }

/-- A flow-start tick: the previous tick saw no flow, this one does, the
alert latch is still set from the previous cycle and the reading is
already at the target. -/
def sampleStartState : DashState :=
  { was_flowing := false
    colors_are_green := true
    pending_fill_gallons := 5
    pending_fill_requested := 50
    pending_fill_shutoff_type := "Manual"
    override_mode := false
    override_enabled_time := 0
    last_alert_triggered := true }

def sampleStartInput : TickInput :=
  { actual := 60
    last_flow_rate := 1
    flow_meter_disconnected := false
    requested_gallons := 60
    now := 0 }

/-- A session in fill mode with 5 gallons requested. -/
def sampleSession : Session :=
  { requested_gallons := 5
    colors_are_green := true
    serial_command_received := true
    current_mode := "fill"
    fill_requested_gallons := 5
    mix_requested_gallons := 40
    override_mode := false
    override_enabled_time := 0 }

/-- Modal flags with the exit-confirmation dialog pending. -/
def exitConfirmPending : UiFlags :=
  { exit_confirm := true
    reset_season_confirm := false
    reminders := false
    log_viewer := false
    fill_history := false
    self_test := false
    full_test := false
    full_test_ov_done := false
    update_mode := false
    menu := false }

/-! ### Helper lemmas about one dashboard tick -/

/-- The state handed to the auto-alert decision: supervision has settled
the override fields, and the earlier flow-transition steps have left the
override fields and the alert latch untouched. -/
theorem dashTick_pre_alert (s : DashState) (i : TickInput) :
    (applySupervision
        ({ flowStartStep (flowStopStep s i) i with was_flowing := isFlowing i })
        i).override_mode
      = (superviseOverride s.override_mode s.override_enabled_time i.last_flow_rate
          i.flow_meter_disconnected i.now).1 ∧
    (applySupervision
        ({ flowStartStep (flowStopStep s i) i with was_flowing := isFlowing i })
        i).last_alert_triggered = s.last_alert_triggered ∧
    (applySupervision
        ({ flowStartStep (flowStopStep s i) i with was_flowing := isFlowing i })
        i).override_enabled_time
      = (superviseOverride s.override_mode s.override_enabled_time i.last_flow_rate
          i.flow_meter_disconnected i.now).2 := by
  unfold applySupervision flowStartStep flowStopStep
  split_ifs <;> simp

/-- The relay-fire output of a tick, as a function of the pre-tick state. -/
theorem dashTick_fired (s : DashState) (i : TickInput) :
    (dashTick s i).2 =
      (!(superviseOverride s.override_mode s.override_enabled_time i.last_flow_rate
           i.flow_meter_disconnected i.now).1
       && !i.flow_meter_disconnected
       && decide (i.requested_gallons - calculate_trigger_threshold i.last_flow_rate
            ≤ i.actual)
       && !s.last_alert_triggered) := by
  obtain ⟨act, rate, disc, req, now⟩ := i
  obtain ⟨hov, hal, -⟩ := dashTick_pre_alert s ⟨act, rate, disc, req, now⟩
  unfold dashTick autoAlertStep
  simp only [hov, hal]
  cases disc <;> split_ifs with h1 h2 <;> simp_all

/-- The alert latch after a tick. -/
theorem dashTick_alert (s : DashState) (i : TickInput) :
    ((dashTick s i).2 = true → (dashTick s i).1.last_alert_triggered = true) ∧
    ((dashTick s i).2 = false →
      i.actual < i.requested_gallons - calculate_trigger_threshold i.last_flow_rate →
      (dashTick s i).1.last_alert_triggered = false) ∧
    ((dashTick s i).2 = false →
      ¬(i.actual < i.requested_gallons - calculate_trigger_threshold i.last_flow_rate) →
      (dashTick s i).1.last_alert_triggered = s.last_alert_triggered) := by
  obtain ⟨act, rate, disc, req, now⟩ := i
  obtain ⟨hov, hal, -⟩ := dashTick_pre_alert s ⟨act, rate, disc, req, now⟩
  unfold dashTick autoAlertStep
  simp only [hov, hal]
  cases disc <;> split_ifs with h1 h2 <;> simp_all

/-! ### C1: auto-alert decision -/

/-- C1: on every tick the stop-relay auto-alert fires iff override (as
settled by this tick's supervision, which runs first in the source) is
disabled, the flow meter is not disconnected, the actual gallons reading
is at least requested minus the flow-rate-dependent trigger threshold,
and the alert latch is clear.  The decision agrees with the pure
predicate `should_trigger_alert`.  Firing sets `alert_already_fired`, so
a second tick with unchanged inputs does not re-fire, and any tick whose
actual reading is below requested minus the threshold re-arms the
latch. -/
theorem C1_auto_alert_decision (s : DashState) (i : TickInput) :
    ((dashTick s i).2 = true ↔
      ((superviseOverride s.override_mode s.override_enabled_time i.last_flow_rate
          i.flow_meter_disconnected i.now).1 = false ∧
       i.flow_meter_disconnected = false ∧
       i.requested_gallons - calculate_trigger_threshold i.last_flow_rate ≤ i.actual ∧
       s.last_alert_triggered = false)) ∧
    ((dashTick s i).2 =
      (!i.flow_meter_disconnected
        && should_trigger_alert i.actual i.requested_gallons i.last_flow_rate
            (superviseOverride s.override_mode s.override_enabled_time i.last_flow_rate
              i.flow_meter_disconnected i.now).1 s.last_alert_triggered)) ∧
    ((dashTick s i).2 = true →
      (dashTick s i).1.last_alert_triggered = true ∧
      (dashTick (dashTick s i).1 i).2 = false) ∧
    (i.actual < i.requested_gallons - calculate_trigger_threshold i.last_flow_rate →
      (dashTick s i).1.last_alert_triggered = false) := by
  have hf := dashTick_fired s i
  have ha := dashTick_alert s i
  have hiff : (dashTick s i).2 = true ↔
      ((superviseOverride s.override_mode s.override_enabled_time i.last_flow_rate
          i.flow_meter_disconnected i.now).1 = false ∧
       i.flow_meter_disconnected = false ∧
       i.requested_gallons - calculate_trigger_threshold i.last_flow_rate ≤ i.actual ∧
       s.last_alert_triggered = false) := by
    rw [hf]
    simp only [Bool.and_eq_true, Bool.not_eq_true', decide_eq_true_eq]
    tauto
  refine ⟨hiff, ?_, ?_, ?_⟩
  · rw [hf]
    cases hb : (superviseOverride s.override_mode s.override_enabled_time i.last_flow_rate
        i.flow_meter_disconnected i.now).1 <;>
      cases hd : i.flow_meter_disconnected <;>
      cases hl : s.last_alert_triggered <;>
      simp [should_trigger_alert, hb, hd, hl]
  · intro h
    have h1 := ha.1 h
    refine ⟨h1, ?_⟩
    rw [dashTick_fired]
    simp [h1]
  · intro hlt
    cases hb : (dashTick s i).2
    · exact ha.2.1 hb hlt
    · have hcond := hiff.mp hb
      linarith [hcond.2.2.1]

/-- Witness for C1 at the spec scenario (requested 60, actual 59.8, flow
1 L/s, override off): the alert fires, the latch is set, and an identical
second tick does not re-fire. -/
theorem C1_auto_alert_decision_witness :
    (dashTick sampleArmedState sampleNearTargetInput).2 = true ∧
    (dashTick sampleArmedState sampleNearTargetInput).1.last_alert_triggered = true ∧
    (dashTick (dashTick sampleArmedState sampleNearTargetInput).1
      sampleNearTargetInput).2 = false := by
  have h := C1_auto_alert_decision sampleArmedState sampleNearTargetInput
  have hfire : (dashTick sampleArmedState sampleNearTargetInput).2 = true :=
    h.1.mpr (by
      norm_num [sampleArmedState, sampleFillState, sampleNearTargetInput,
        superviseOverride, calculate_trigger_threshold, LITERS_PER_SEC_TO_GPM,
        FLOW_CURVE_SLOPE, FLOW_CURVE_INTERCEPT, max_def])
  exact ⟨hfire, (h.2.2.1 hfire).1, (h.2.2.1 hfire).2⟩

/-! ### C8: flow-start transition -/

/-- C8 counterexample: a flow-start tick (`was_flowing = false`, flow
detected this tick) on which the relay does not fire, yet
`last_alert_triggered` remains set from the previous cycle: the
flow-start transition does not clear `alert_already_fired`, contrary to
the claim. -/
theorem C8_flow_start_counterexample :
    sampleStartState.was_flowing = false ∧
    isFlowing sampleStartInput = true ∧
    sampleStartState.last_alert_triggered = true ∧
    (dashTick sampleStartState sampleStartInput).2 = false ∧
    (dashTick sampleStartState sampleStartInput).1.last_alert_triggered = true := by
  refine ⟨rfl, ?_, rfl, ?_, ?_⟩ <;>
    norm_num [dashTick, autoAlertStep, applySupervision, flowStartStep,
      flowStopStep, superviseOverride, isFlowing, calculate_trigger_threshold,
      sampleStartState, sampleStartInput, FLOW_STOPPED_THRESHOLD,
      LITERS_PER_SEC_TO_GPM, FLOW_CURVE_SLOPE, FLOW_CURVE_INTERCEPT, max_def]

/-- C8 amended: on every flow-start tick the controller clears any
unconfirmed pending fill result and the colors-changed acknowledgment
flag; it does not clear `alert_already_fired` as part of the transition —
after the tick the latch is set exactly when the alert fired this tick or
when it was already set and the reading is not below requested minus the
threshold (the only re-arm path). -/
theorem C8_flow_start_transition (s : DashState) (i : TickInput)
    (hw : s.was_flowing = false) (hf : isFlowing i = true) :
    (dashTick s i).1.pending_fill_gallons = 0 ∧
    (dashTick s i).1.pending_fill_requested = 0 ∧
    (dashTick s i).1.pending_fill_shutoff_type = "" ∧
    (dashTick s i).1.colors_are_green = false ∧
    ((dashTick s i).1.last_alert_triggered = true ↔
      ((dashTick s i).2 = true ∨
        (s.last_alert_triggered = true ∧
          ¬(i.actual < i.requested_gallons
              - calculate_trigger_threshold i.last_flow_rate)))) := by
  unfold dashTick autoAlertStep applySupervision flowStartStep flowStopStep
  simp only [hw, hf, Bool.false_and, Bool.and_false, Bool.not_false,
    Bool.true_and, Bool.and_true, if_false, if_true]
  split_ifs with h1 h2 <;> simp_all

/-- Witness for C8 amended at the sample flow-start tick. -/
theorem C8_flow_start_transition_witness :
    (dashTick sampleStartState sampleStartInput).1.pending_fill_gallons = 0 ∧
    (dashTick sampleStartState sampleStartInput).1.colors_are_green = false := by
  have h := C8_flow_start_transition sampleStartState sampleStartInput rfl
    (by norm_num [isFlowing, sampleStartInput, FLOW_STOPPED_THRESHOLD])
  exact ⟨h.1, h.2.2.2.1⟩

/-! ### C3: override safety supervision -/

/-- Once override is off, supervision never turns it back on and never
moves the reference point. -/
theorem runOverride_false (t : ℚ) (ticks : List OvTick) :
    runOverride false t ticks = (false, t) := by
  induction ticks generalizing t with
  | nil => rfl
  | cons tk rest ih => simpa [runOverride, superviseOverride] using ih t

/-- C3 counterexample: a tick with override on and flow detected (1 L/s,
above the stopped threshold) but the flow meter disconnected: supervision
leaves the reference point unchanged instead of resetting it to the tick
time, so it is not the case that every tick on which flow is detected
while override is on resets the reference point. -/
theorem C3_override_reset_counterexample :
    FLOW_STOPPED_THRESHOLD ≤ 1 ∧
    superviseOverride true 0 1 true 100 = (true, 0) ∧
    (superviseOverride true 0 1 true 100).2 ≠ 100 := by
  refine ⟨by norm_num [FLOW_STOPPED_THRESHOLD], rfl, ?_⟩
  norm_num [superviseOverride]

/-- C3 amended: while override is on, a tick with the meter disconnected
changes neither override nor the reference point (so override is never
auto-disabled while disconnected); a connected tick with flow at or above
the stopped threshold resets the reference point to the tick time; and if
every tick of a run is connected with flow below the stopped threshold
and some tick occurs more than 60 seconds after the reference point,
override is forced off by the end of the run. -/
theorem C3_override_supervision (ov : Bool) (t r now : ℚ) (ticks : List OvTick) :
    (superviseOverride ov t r true now = (ov, t)) ∧
    (FLOW_STOPPED_THRESHOLD ≤ r → superviseOverride true t r false now = (true, now)) ∧
    ((∀ tk ∈ ticks, tk.flow_meter_disconnected = false ∧
        tk.last_flow_rate < FLOW_STOPPED_THRESHOLD) →
      (∃ tk ∈ ticks, 60 < tk.now - t) →
      (runOverride true t ticks).1 = false) := by
  refine ⟨by cases ov <;> rfl, ?_, ?_⟩
  · intro h
    simp [superviseOverride, not_lt.mpr h]
  · intro hall hex
    induction ticks generalizing t with
    | nil =>
      obtain ⟨tk, htk, -⟩ := hex
      cases htk
    | cons tk rest ih =>
      obtain ⟨hdisc, hflow⟩ := hall tk (List.mem_cons_self tk rest)
      simp only [runOverride, hdisc]
      by_cases h60 : 60 < tk.now - t
      · have hstep : superviseOverride true t tk.last_flow_rate false tk.now
            = (false, t) := by
          simp [superviseOverride, hflow, h60]
        rw [hstep]
        simp [runOverride_false]
      · have hstep : superviseOverride true t tk.last_flow_rate false tk.now
            = (true, t) := by
          simp [superviseOverride, hflow, h60]
        rw [hstep]
        refine ih t (fun tk2 h2 => hall tk2 (List.mem_cons_of_mem tk h2)) ?_
        obtain ⟨tk2, htk2, h2⟩ := hex
        rcases List.mem_cons.mp htk2 with h | h
        · exact absurd (h ▸ h2) h60
        · exact ⟨tk2, h, h2⟩

/-- Witness for C3 amended: a disconnected flowing tick leaves the state
alone; a connected flowing tick resets the reference; a 61-second
no-flow tick while connected forces override off. -/
theorem C3_override_supervision_witness :
    superviseOverride true 0 1 true 5 = (true, 0) ∧
    superviseOverride true 0 1 false 5 = (true, 5) ∧
    (runOverride true 0 [⟨0, false, 61⟩]).1 = false := by
  have h := C3_override_supervision true 0 1 5 [⟨0, false, 61⟩]
  refine ⟨h.1, h.2.1 (by norm_num [FLOW_STOPPED_THRESHOLD]), h.2.2 ?_ ?_⟩
  · intro tk htk
    rcases List.mem_singleton.mp htk with rfl
    exact ⟨rfl, by norm_num [FLOW_STOPPED_THRESHOLD]⟩
  · exact ⟨⟨0, false, 61⟩, List.mem_singleton.mpr rfl, by norm_num⟩

/-! ### C5: stale-frame threshold -/

/-- One read of a frame identical to the previous one: the counter
increments, and the read is reported stale exactly when the counter
reaches the threshold. -/
theorem readStep_identical (f : Frame) (hlen : 15 ≤ f.length)
    (hz : f.allZero = false) (c : ℕ) (e : Bool) :
    readFlowMeterStep ⟨some f, c, e⟩ f =
      if STALE_RAW_THRESHOLD ≤ c + 1 then (⟨some f, c + 1, true⟩, .stale)
      else (⟨some f, c + 1, false⟩, .ok) := by
  unfold readFlowMeterStep
  rw [if_neg (by omega), if_neg (by simp [hz]), if_pos rfl]

/-- Feeding the same frame below the threshold leaves the counter at the
number of identical receipts. -/
theorem feedRepeated_identical (f : Frame) (hlen : 15 ≤ f.length)
    (hz : f.allZero = false) :
    ∀ (n c : ℕ) (e : Bool), c + n < STALE_RAW_THRESHOLD →
      feedRepeated ⟨some f, c, e⟩ f n
        = ⟨some f, c + n, if n = 0 then e else false⟩
  | 0, c, e, _ => by simp [feedRepeated]
  | n + 1, c, e, h => by
    unfold feedRepeated
    rw [readStep_identical f hlen hz c e, if_neg (by omega)]
    rw [show ((⟨some f, c + 1, false⟩, ReadOutcome.ok) :
        LinkState × ReadOutcome).1 = ⟨some f, c + 1, false⟩ from rfl]
    rw [feedRepeated_identical f hlen hz n (c + 1) false (by omega)]
    simp
    omega

/-- Feeding the same frame while the counter stays below the threshold
never reports stale. -/
theorem anyStale_identical (f : Frame) (hlen : 15 ≤ f.length)
    (hz : f.allZero = false) :
    ∀ (n c : ℕ) (e : Bool), c + n < STALE_RAW_THRESHOLD →
      anyStale ⟨some f, c, e⟩ f n = false
  | 0, _, _, _ => rfl
  | n + 1, c, e, h => by
    unfold anyStale
    rw [readStep_identical f hlen hz c e, if_neg (by omega)]
    simp only [Prod.snd, Prod.fst]
    rw [anyStale_identical f hlen hz n (c + 1) false (by omega)]
    rfl

/-- C5: starting from a link state whose previous frame equals `f` with
the identical-read counter at zero, 24 consecutive identical receipts of
`f` (a live, non-zero frame of full length) never report Stale, while the
25th identical receipt does; and whenever the incoming frame differs from
the previous one the counter resets to zero. -/
theorem C5_stale_threshold (f : Frame) (e : Bool)
    (hlen : 15 ≤ f.length) (hz : f.allZero = false) :
    (∀ n, n ≤ 24 → anyStale ⟨some f, 0, e⟩ f n = false) ∧
    (readFlowMeterStep (feedRepeated ⟨some f, 0, e⟩ f 24) f).2 = .stale ∧
    (∀ s : LinkState, s.last_raw_data ≠ some f →
      (readFlowMeterStep s f).1.consecutive_identical_raw = 0) := by
  refine ⟨?_, ?_, ?_⟩
  · intro n hn
    exact anyStale_identical f hlen hz n 0 e (by simp [STALE_RAW_THRESHOLD]; omega)
  · rw [feedRepeated_identical f hlen hz 24 0 e (by norm_num [STALE_RAW_THRESHOLD])]
    norm_num
    rw [readStep_identical f hlen hz 24 false]
    rw [if_pos (by norm_num [STALE_RAW_THRESHOLD])]
  · intro s hne
    unfold readFlowMeterStep
    rw [if_neg (by omega), if_neg (by simp [hz]), if_neg hne]

/-- Witness for C5 on a concrete 15-byte frame of ones. -/
theorem C5_stale_threshold_witness :
    anyStale ⟨some (List.replicate 15 1), 0, false⟩ (List.replicate 15 1) 24
      = false ∧
    (readFlowMeterStep
        (feedRepeated ⟨some (List.replicate 15 1), 0, false⟩
          (List.replicate 15 1) 24)
        (List.replicate 15 1)).2 = .stale := by
  have h := C5_stale_threshold (List.replicate 15 1) false (by simp) (by decide)
  exact ⟨h.1 24 le_rfl, h.2.1⟩

/-! ### C6: recovery rate limiting -/

/-- C6 counterexample: with no recovery in progress and the previous
attempt exactly 15 seconds ago — a gap that does not strictly exceed the
minimum interval — the rate limiter still lets the recovery execute, so
"executes only when the time since the last attempt exceeds the minimum
interval" fails at the boundary. -/
theorem C6_interval_boundary_counterexample :
    (try_iol_power_cycle ⟨false, 0⟩ 15).2 = true ∧
    ¬(IOL_RECONNECT_INTERVAL < 15 - (0 : ℚ)) := by
  constructor
  · norm_num [try_iol_power_cycle, IOL_RECONNECT_INTERVAL]
  · norm_num [IOL_RECONNECT_INTERVAL]

/-- C6 amended: recovery executes iff no recovery is in progress and at
least the minimum interval has elapsed since the last attempt; the body
of the recovery sequence clears the in-progress flag and stamps the
attempt time on every one of its exit paths (power-off failure, power-on
failure, completion, unexpected error); and a second request within the
minimum interval of an executed first request is a no-op, both while the
first is still running and after it finishes at any time `tf ≥ t0`. -/
theorem C6_recovery_rate_limiting (s : RecoveryState) (t0 t1 tf : ℚ)
    (o : CycleOutcome) :
    ((try_iol_power_cycle s t0).2 = true ↔
      (s.iol_power_cycle_in_progress = false ∧
        IOL_RECONNECT_INTERVAL ≤ t0 - s.last_power_cycle_time)) ∧
    ((iol_power_cycle s o tf).iol_power_cycle_in_progress = false ∧
      (iol_power_cycle s o tf).last_power_cycle_time = tf) ∧
    ((try_iol_power_cycle s t0).2 = true →
      (try_iol_power_cycle (try_iol_power_cycle s t0).1 t1).2 = false) ∧
    ((try_iol_power_cycle s t0).2 = true → t0 ≤ tf →
      t1 - t0 < IOL_RECONNECT_INTERVAL →
      (try_iol_power_cycle (iol_power_cycle (try_iol_power_cycle s t0).1 o tf)
        t1).2 = false) := by
  refine ⟨?_, by cases o <;> exact ⟨rfl, rfl⟩, ?_, ?_⟩
  · unfold try_iol_power_cycle
    split_ifs with h1 h2 <;> simp_all [not_lt]
  · intro h
    have hst : (try_iol_power_cycle s t0).1.iol_power_cycle_in_progress = true := by
      unfold try_iol_power_cycle at h ⊢
      split_ifs at h ⊢ <;> simp_all
    have haux : ∀ (s2 : RecoveryState) (t2 : ℚ),
        s2.iol_power_cycle_in_progress = true →
        (try_iol_power_cycle s2 t2).2 = false := by
      intro s2 t2 h2
      unfold try_iol_power_cycle
      rw [if_pos h2]
    exact haux _ t1 hst
  · intro h ht0 ht1
    have hip :
        (iol_power_cycle (try_iol_power_cycle s t0).1 o tf).iol_power_cycle_in_progress
          = false := by
      cases o <;> rfl
    have hlast :
        (iol_power_cycle (try_iol_power_cycle s t0).1 o tf).last_power_cycle_time
          = tf := by
      cases o <;> rfl
    have haux : ∀ s2 : RecoveryState,
        s2.iol_power_cycle_in_progress = false →
        t1 - s2.last_power_cycle_time < IOL_RECONNECT_INTERVAL →
        (try_iol_power_cycle s2 t1).2 = false := by
      intro s2 h2 h3
      unfold try_iol_power_cycle
      rw [if_neg (by simp [h2]), if_pos h3]
    exact haux _ hip (by rw [hlast]; linarith)

/-- Witness for C6: last attempt at t = 0, first request at t = 20
executes; a second request at t = 30 is a no-op both while the first is
in flight and after it completes at t = 22. -/
theorem C6_recovery_rate_limiting_witness :
    (try_iol_power_cycle ⟨false, 0⟩ 20).2 = true ∧
    (try_iol_power_cycle (try_iol_power_cycle ⟨false, 0⟩ 20).1 30).2 = false ∧
    (try_iol_power_cycle
        (iol_power_cycle (try_iol_power_cycle ⟨false, 0⟩ 20).1
          CycleOutcome.completed 22) 30).2 = false := by
  have h := C6_recovery_rate_limiting ⟨false, 0⟩ 20 30 22 CycleOutcome.completed
  have h1 : (try_iol_power_cycle (⟨false, 0⟩ : RecoveryState) 20).2 = true :=
    h.1.mpr ⟨rfl, by norm_num [IOL_RECONNECT_INTERVAL]⟩
  exact ⟨h1, h.2.2.1 h1,
    h.2.2.2 h1 (by norm_num) (by norm_num [IOL_RECONNECT_INTERVAL])⟩

/-! ### C2: relay pulse always returns to inactive? -/

/-- C2 counterexample: GPIO available and every step succeeds except the
log write immediately after the HIGH transition: the except handler in
`pump_stop_relay` only logs, so the call terminates with the relay output
still driven active — there is no finally-style restore of the inactive
level. -/
theorem C2_pulse_counterexample :
    pump_stop_relay true true true true false true true true = RelayLevel.high := rfl

/-- C2 amended: a `pump_stop_relay` pulse ends with the relay active
exactly when the HIGH transition succeeded (GPIO available, the entry and
pre-HIGH log writes and the HIGH output all succeed) but one of the
subsequent steps — post-HIGH log, sleep, post-sleep log, or the LOW
output itself — raised; only when every one of those steps succeeds is
the output returned to inactive.  The same holds for
`GPIOHandler.activate_relay`, whose sleep or LOW output can raise after
the HIGH transition. -/
theorem C2_pulse_final_level :
    (∀ g e p sh ph sl ps lo : Bool,
      pump_stop_relay g e p sh ph sl ps lo = RelayLevel.high ↔
        (g = true ∧ e = true ∧ p = true ∧ sh = true ∧
          ¬(ph = true ∧ sl = true ∧ ps = true ∧ lo = true))) ∧
    (∀ a ash asl alo : Bool,
      (activate_relay a ash asl alo).1 = RelayLevel.high ↔
        (a = true ∧ ash = true ∧ ¬(asl = true ∧ alo = true))) := by
  constructor
  · intro g e p sh ph sl ps lo
    cases g <;> cases e <;> cases p <;> cases sh <;> cases ph <;> cases sl <;>
      cases ps <;> cases lo <;> decide
  · intro a ash asl alo
    cases a <;> cases ash <;> cases asl <;> cases alo <;> decide

/-- Witness for C2 amended: a failing sleep after the HIGH transition
leaves `pump_stop_relay` active; a failing sleep in `activate_relay`
likewise. -/
theorem C2_pulse_final_level_witness :
    pump_stop_relay true true true true true false true true = RelayLevel.high ∧
    (activate_relay true true false true).1 = RelayLevel.high := by
  have h := C2_pulse_final_level
  exact ⟨(h.1 true true true true true false true true).mpr
      ⟨rfl, rfl, rfl, rfl, by simp⟩,
    (h.2 true true false true).mpr ⟨rfl, rfl, by simp⟩⟩

/-! ### C4: modal dispatch priority and the two transports -/

/-- C4 counterexample: the socket listener dispatches without consulting
any modal-dialog flag (the `socket_dispatch` embedding takes no `UiFlags`
argument because `socket_command_listener` reads none of them): with the
exit-confirmation dialog pending, a `+1` token arriving over the local
socket still adjusts `requested_gallons` from 5 to 6, and an `OV` token
over the socket matches no branch at all instead of invoking the confirm
handler. -/
theorem C4_socket_bypass_counterexample :
    exitConfirmPending.exit_confirm = true ∧
    sampleSession.requested_gallons = 5 ∧
    (socket_dispatch sampleSession ("+1")).1.requested_gallons = 6 ∧
    (socket_dispatch sampleSession ("OV")).2 = SocketAction.noMatch := by
  have h1 : strStartsWith ("+1") ("BATCHMIX_ERROR:") = false := by decide
  have h2 : strStartsWith ("+1") ("BATCHMIX:") = false := by decide
  have h3 : strStartsWith ("+1") ("MOPEKA:") = false := by decide
  refine ⟨rfl, rfl, ?_, by rfl⟩
  simp [socket_dispatch, adjustRequested, sampleSession, h1, h2, h3]
  norm_num

/-- C4 amended: the modal dispatch priority applies to serial tokens:
with the exit-confirmation dialog pending, a serial `+1` leaves the
session unchanged (the token is logged and dropped) and a serial `OV`
invokes the confirm handler, not the gallon-adjust or override handler.
Socket tokens bypass the modal dispatch entirely: `+1` over the socket
adjusts `requested_gallons` (clamped at zero) regardless of any pending
dialog, and `OV` over the socket matches no branch and changes
nothing. -/
theorem C4_modal_dispatch (ui : UiFlags) (s : Session) (now : ℚ)
    (hui : ui.exit_confirm = true) :
    serial_dispatch ui s now ("+1") = (s, .ignoredInModal) ∧
    serial_dispatch ui s now ("OV") = (s, .exitConfirmed) ∧
    (socket_dispatch s ("+1")).1.requested_gallons =
      (if s.requested_gallons + 1 < 0 then 0 else s.requested_gallons + 1) ∧
    (socket_dispatch s ("OV")).2 = SocketAction.noMatch ∧
    (socket_dispatch s ("OV")).1 = s := by
  have h1 : strStartsWith ("+1") ("BATCHMIX_ERROR:") = false := by decide
  have h2 : strStartsWith ("+1") ("BATCHMIX:") = false := by decide
  have h3 : strStartsWith ("+1") ("MOPEKA:") = false := by decide
  refine ⟨?_, ?_, ?_, rfl, rfl⟩
  · simp [serial_dispatch, hui]
  · simp [serial_dispatch, hui]
  · simp [socket_dispatch, adjustRequested, h1, h2, h3]

/-- Witness for C4 amended with the exit dialog pending on the sample
session. -/
theorem C4_modal_dispatch_witness :
    serial_dispatch exitConfirmPending sampleSession 0 ("+1")
      = (sampleSession, .ignoredInModal) ∧
    serial_dispatch exitConfirmPending sampleSession 0 ("OV")
      = (sampleSession, .exitConfirmed) := by
  have h := C4_modal_dispatch exitConfirmPending sampleSession 0 rfl
  exact ⟨h.1, h.2.1⟩

/-! ### C7: short-frame rejection -/

/-- C7 counterexample: a flow meter configured with expected length 10
and a 12-byte frame: the frame length is at least the configured expected
length, yet `_parse_data` rejects it as ShortFrame, because the guard
compares against the literal 15 rather than the configured
`data_length`. -/
theorem C7_short_frame_counterexample :
    ({ data_length := 10 } : FlowMeter).data_length
      ≤ (List.replicate 12 1 : Frame).length ∧
    ({ data_length := 10 } : FlowMeter).parse_data (List.replicate 12 1)
      = .error .shortFrame := by
  exact ⟨by simp, rfl⟩

/-- C7 amended: for every configured expected length and every frame,
decoding fails with ShortFrame exactly when the frame is shorter than 15
bytes (the fixed protocol length), regardless of the frame's content and
of the configured expected length. -/
theorem C7_short_frame_iff (m : FlowMeter) (raw : Frame) :
    m.parse_data raw = .error .shortFrame ↔ raw.length < 15 := by
  unfold FlowMeter.parse_data
  split_ifs with h1 h2 <;> simp [h1]

/-- Witness for C7 amended: a 3-byte frame is rejected as ShortFrame at
the default configuration. -/
theorem C7_short_frame_iff_witness :
    ({ data_length := 15 } : FlowMeter).parse_data (List.replicate 3 0)
      = .error .shortFrame :=
  (C7_short_frame_iff _ _).mpr (by simp)

/-! ### C9: mode-switch round trip -/

/-- C9: switching from the active mode to the other mode and back
restores `requested_gallons` — in dashboard.py's `switch_mode` and in
state.py's `DashboardState.switch_mode` — and switching to the mode that
is already active changes no session state. -/
theorem C9_mode_switch_round_trip (s : Session) (st : DashboardState)
    (hs : s.current_mode = "fill" ∨ s.current_mode = "mix")
    (hst : st.mode.current_mode = "fill" ∨ st.mode.current_mode = "mix") :
    (switch_mode (switch_mode s (otherMode s.current_mode))
        s.current_mode).requested_gallons = s.requested_gallons ∧
    switch_mode s s.current_mode = s ∧
    (DashboardState.switch_mode
        (DashboardState.switch_mode st (otherMode st.mode.current_mode))
        st.mode.current_mode).fill.requested_gallons
      = st.fill.requested_gallons ∧
    DashboardState.switch_mode st st.mode.current_mode = st := by
  refine ⟨?_, ?_, ?_, ?_⟩
  · rcases hs with h | h <;> simp [switch_mode, otherMode, h]
  · unfold switch_mode
    rw [if_pos rfl]
  · rcases hst with h | h <;> simp [DashboardState.switch_mode, otherMode, h]
  · unfold DashboardState.switch_mode
    split_ifs with h1 h2 <;> first
      | rfl
      | exact absurd rfl h2

/-- Witness for C9 on the sample fill-mode session and state store. -/
theorem C9_mode_switch_round_trip_witness :
    (switch_mode (switch_mode sampleSession (otherMode sampleSession.current_mode))
        sampleSession.current_mode).requested_gallons = 5 ∧
    switch_mode sampleSession sampleSession.current_mode = sampleSession ∧
    (DashboardState.switch_mode
        (DashboardState.switch_mode sampleDashboardState
          (otherMode sampleDashboardState.mode.current_mode))
        sampleDashboardState.mode.current_mode).fill.requested_gallons = 7 := by
  have h := C9_mode_switch_round_trip sampleSession sampleDashboardState
    (Or.inl rfl) (Or.inl rfl)
  exact ⟨h.1.trans rfl, h.2.1, h.2.2.1.trans rfl⟩

/-! ### C10: confirming a pending fill -/

/-- C10: confirming a pending fill commits only a strictly positive
amount: with pending gallons at 0 (which also represents "no pending
fill") the confirm entry point changes nothing — totals and pending
fields included; with positive pending gallons it adds exactly that
amount to the daily and season totals and clears all pending-fill
fields. -/
theorem C10_record_pending_fill (s : TotalsSession) :
    (s.pending_fill_gallons = 0 → record_pending_fill s = s) ∧
    (0 < s.pending_fill_gallons →
      (record_pending_fill s).daily_total = s.daily_total + s.pending_fill_gallons ∧
      (record_pending_fill s).season_total = s.season_total + s.pending_fill_gallons ∧
      (record_pending_fill s).pending_fill_gallons = 0 ∧
      (record_pending_fill s).pending_fill_requested = 0 ∧
      (record_pending_fill s).pending_fill_shutoff_type = "") := by
  constructor
  · intro h
    simp [record_pending_fill, h]
  · intro h
    simp [record_pending_fill, add_to_totals, h]

/-- Witness for C10: a zero pending fill is a no-op; a 3-gallon pending
fill adds 3 to both totals and clears the pending fields. -/
theorem C10_record_pending_fill_witness :
    record_pending_fill
        { daily_total := 10, season_total := 100, pending_fill_gallons := 0,
          pending_fill_requested := 0, pending_fill_shutoff_type := "" }
      = { daily_total := 10, season_total := 100, pending_fill_gallons := 0,
          pending_fill_requested := 0, pending_fill_shutoff_type := "" } ∧
    (record_pending_fill
        { daily_total := 10, season_total := 100, pending_fill_gallons := 3,
          pending_fill_requested := 60, pending_fill_shutoff_type := "Auto" }).daily_total
      = 13 ∧
    (record_pending_fill
        { daily_total := 10, season_total := 100, pending_fill_gallons := 3,
          pending_fill_requested := 60, pending_fill_shutoff_type := "Auto" }).season_total
      = 103 := by
  refine ⟨(C10_record_pending_fill _).1 rfl, ?_, ?_⟩
  · rw [((C10_record_pending_fill _).2 (by norm_num)).1]
    norm_num
  · rw [((C10_record_pending_fill _).2 (by norm_num)).2.1]
    norm_num

end BBB
